import Mathlib

/-!
Shallow embedding of the policy-evaluator construction pipeline
(`src/policy_evaluator_builder.rs`) and of the policy identity value object
(`src/policy.rs`).

Machine integers (`u64`) are modelled as `Nat` (no arithmetic is performed on
them, they are only stored and compared). Fallible Rust functions returning
`anyhow::Result` are modelled with `Except BuildError`; the two `unwrap` calls
inside `build` are modelled with a distinguished `panicked` outcome.
External collaborators (the wasmtime engine, module compilation, the waPC
stack, the burrego evaluator) are parameterized by an `Externals` record of
oracles so that every failure path of `build` is representable.
-/

namespace PolicyEvaluatorLib

/-- The execution modes a policy can declare (`PolicyExecutionMode` in
`policy_evaluator.rs`, used by the builder). -/
inductive PolicyExecutionMode where
  | KubewardenWapc
  | Wasi
  | Opa
  | OpaGatekeeper
deriving DecidableEq, Repr

/-- Rust `EpochDeadlines` from `policy_evaluator_builder.rs`: the two tick budgets
for wasmtime epoch-based interruption. -/
structure EpochDeadlines where
  wapc_init : Nat
  wapc_func : Nat
deriving DecidableEq, Repr

/-- The sender half of the tokio mpsc channel carrying `CallbackRequest`
values. The channel itself is opaque to this crate; we give it an abstract
`content` so that two distinct channels can be told apart by the model even
though the code must never inspect it. -/
structure CallbackChannel where
  content : Nat
deriving DecidableEq, Repr

/-- Modelled from the spec: a context-aware resource descriptor
(`ContextAwareResource` in `policy_metadata.rs`, not part of the given
sources): a kind/namespace-scoped identifier of a Kubernetes resource. -/
structure ContextAwareResource where
  apiVersion : String
  kind : String
deriving DecidableEq, Repr

/-- Rust `Policy` from `src/policy.rs`: the minimal policy identity carried into
`host_callback`. The private `policy_id` field is the optional waPC instance
handle. -/
structure Policy where
  id : String
  mutating : Bool
  policy_id : Option Nat
  callback_channel : Option CallbackChannel
deriving DecidableEq, Repr

/-- The custom `PartialEq for Policy`: equality looks only at `id` and
`policy_id`. -/
def Policy.eq (a b : Policy) : Bool :=
  a.id == b.id && a.policy_id == b.policy_id

/-- Rust `Debug` rendering of an `Option<u64>` value (`{:?}`). -/
def debugOptionNat : Option Nat → String
  | some n => "Some(" ++ toString n ++ ")"
  | none => "None"

/-- The custom `Debug for Policy` from `src/policy.rs`: the callback channel
is rendered as the fixed placeholder `Some(...)` or `None`, never its
contents; the `mutating` field is not rendered at all. -/
def Policy.debugFmt (p : Policy) : String :=
  let callback_channel : String :=
    match p.callback_channel with
    | some _ => "Some(...)"
    | none => "None"
  "Policy \x7b id: \"" ++ p.id ++ "\", policy_id: " ++ debugOptionNat p.policy_id
    ++ ", callback_channel: " ++ callback_channel ++ " \x7d"

/-- Rust `Policy::new` from `src/policy.rs`: wraps the four fields in `Ok`,
unconditionally. The error type of the Rust `Result` is `anyhow::Error`,
modelled as `String`. -/
def Policy.new (id : String) (mutating : Bool) (policy_id : Option Nat)
    (callback_channel : Option CallbackChannel) : Except String Policy :=
  Except.ok { id := id, mutating := mutating, policy_id := policy_id,
              callback_channel := callback_channel }

/-- A wasmtime `Config`, restricted to the two knobs the builder touches:
the compilation cache and epoch-based interruption. -/
structure Config where
  cache : Bool
  epoch_interruption : Bool
deriving DecidableEq, Repr

/-- Rust `wasmtime::Config::new()`: both knobs start disabled. -/
def Config.new : Config :=
  { cache := false, epoch_interruption := false }

/-- A wasmtime `Engine`, characterized by the configuration it was built
with (cloning an engine copies a cheap handle and keeps the config). -/
structure Engine where
  config : Config
deriving DecidableEq, Repr

/-- A compiled wasmtime `Module`; opaque to the builder, which only clones it
or passes it to the runtime stacks. -/
structure Module where
  mdata : Nat
deriving DecidableEq, Repr

/-- The module-source fields of the builder that must be pairwise
exclusive. -/
inductive BuilderSourceField where
  | policy_file
  | policy_contents
  | policy_module
deriving DecidableEq, Repr

/-- The errors `build` / `validate_user_input` can return, one constructor per
distinct `anyhow!` site. `cannotSpecifyTogether f g` stands for the message
`Cannot specify <f> and <g> at the same time`, which names both conflicting
fields. -/
inductive BuildError where
  | cannotSpecifyTogether (first second : BuilderSourceField)
  | mustSpecifyOneSource
  | mustProvideEngine
  | mustSpecifyExecutionMode
  | cannotCreateEngine
  | moduleCompilationFailed
  | wapcStackFailed
  | wasiStackFailed
  | burregoBuildFailed
  | notARegoMode
deriving DecidableEq, Repr

/-- Outcome of a Rust function that can also panic (`unwrap` on `None`). -/
inductive RustOutcome (α : Type) where
  | ok (value : α)
  | err (error : BuildError)
  | panicked
deriving DecidableEq, Repr

/-- Holds `true` iff the outcome is `ok`. -/
def RustOutcome.isOk : RustOutcome α → Bool
  | .ok _ => true
  | _ => false

/-- Oracles for the external collaborators `build` calls into: whether each
fallible external operation succeeds, what module a compilation yields, and
the wapc host id the freshly created waPC stack reports. -/
structure Externals where
  cache_config_load_ok : Bool
  engine_new_ok : Config → Bool
  from_file : Engine → String → Option Module
  module_new : Engine → List Nat → Option Module
  wapc_stack_new_ok : Bool
  wapc_host_id : Nat
  wasi_stack_new_ok : Bool
  burrego_build_ok : Bool

/-- Observable side effects of `build`, in order of occurrence: creating a
fresh engine, reading a policy file from disk, compiling module bytes, and
registering an instance in the evaluation-context registry. -/
inductive Effect where
  | engineCreation
  | fileRead (path : String)
  | moduleCompilation
  | registryRegistration (wapc_host_id : Nat)
deriving DecidableEq, Repr

/-- Rust `EvaluationContext` as constructed by `create_wapc_runtime` (its fields
are fixed by that construction site; the type itself lives in
`evaluation_context.rs`). The `BTreeSet` allow list is modelled as a list. -/
structure EvaluationContext where
  policy_id : String
  callback_channel : Option CallbackChannel
  ctx_aware_resources_allow_list : List ContextAwareResource
deriving DecidableEq, Repr

/-- What the evaluation-context registry stores per wapc host id: the owning
worker and the evaluation context. -/
structure RegistryEntry where
  worker_id : Nat
  eval_ctx : EvaluationContext
deriving DecidableEq, Repr

/-- The process-wide evaluation-context registry, as a map from wapc host id
to its entry (association list, newest first). -/
abbrev Registry := List (Nat × RegistryEntry)

/-- Modelled from the spec: `register_policy` of
`runtimes/wapc/evaluation_context_registry.rs` (not part of the given
sources) inserts the mapping `instance_handle -> (worker_handle, context)`
into the process-wide registry; instance handles are assumed globally
unique, so insertion never overwrites a live entry. -/
def register_policy (wapc_host_id : Nat) (worker_id : Nat)
    (eval_ctx : EvaluationContext) (reg : Registry) : Registry :=
  (wapc_host_id, { worker_id := worker_id, eval_ctx := eval_ctx }) :: reg

/-- Registry lookup by wapc host id (the spec's `lookup_context` /
`lookup_worker` pair, returning both components). -/
def Registry.lookup (reg : Registry) (wapc_host_id : Nat) : Option RegistryEntry :=
  (reg.find? (fun entry => entry.fst == wapc_host_id)).map Prod.snd

/-- Modelled from the spec: the waPC execution stack built by
`WapcStack::new` (in `runtimes/wapc`, not part of the given sources) from
the engine, the module and the deadlines; `wapc_host_id` is the unique
handle of the guest instance it creates. -/
structure WapcStack where
  engine : Engine
  module : Module
  epoch_deadlines : Option EpochDeadlines
  wapc_host_id : Nat
deriving DecidableEq, Repr

/-- Modelled from the spec: `WapcStack::new` creates the waPC stack and the
guest instance, or fails; the fresh instance handle comes from the
environment. -/
def WapcStack.new (engine : Engine) (module : Module)
    (epoch_deadlines : Option EpochDeadlines) (ext : Externals) :
    Except BuildError WapcStack :=
  if ext.wapc_stack_new_ok then
    Except.ok { engine := engine, module := module,
                epoch_deadlines := epoch_deadlines,
                wapc_host_id := ext.wapc_host_id }
  else
    Except.error BuildError.wapcStackFailed

/-- Modelled from the spec: the command-line-dialect stack built by
`wasi_cli::Stack::new` (not part of the given sources). -/
structure WasiStack where
  engine : Engine
  module : Module
  epoch_deadlines : Option EpochDeadlines
deriving DecidableEq, Repr

/-- Modelled from the spec: `wasi_cli::Stack::new` builds the command-line
stack from the engine, module and deadlines, or fails. -/
def WasiStack.new (engine : Engine) (module : Module)
    (epoch_deadlines : Option EpochDeadlines) (ext : Externals) :
    Except BuildError WasiStack :=
  if ext.wasi_stack_new_ok then
    Except.ok { engine := engine, module := module,
                epoch_deadlines := epoch_deadlines }
  else
    Except.error BuildError.wasiStackFailed

/-- The rule-engine's own mode enumeration (`try_into` target of
`PolicyExecutionMode` for the two Rego sub-modes). -/
inductive RegoPolicyExecutionMode where
  | Opa
  | Gatekeeper
deriving DecidableEq, Repr

/-- Rust `PolicyExecutionMode -> RegoPolicyExecutionMode` conversion
(`execution_mode.try_into()?` in `build`): only the two Rego sub-modes
convert. -/
def PolicyExecutionMode.try_into_rego :
    PolicyExecutionMode → Except BuildError RegoPolicyExecutionMode
  | PolicyExecutionMode.Opa => Except.ok RegoPolicyExecutionMode.Opa
  | PolicyExecutionMode.OpaGatekeeper => Except.ok RegoPolicyExecutionMode.Gatekeeper
  | _ => Except.error BuildError.notARegoMode

/-- The burrego evaluator as configured by `build`: the engine and module it
was given, whether the crate's host callbacks were wired, and — when epoch
interruption was enabled — the single per-call tick budget it was given. -/
structure BurregoEvaluator where
  engine : Engine
  module : Module
  host_callbacks_wired : Bool
  epoch_deadline : Option Nat
deriving DecidableEq, Repr

/-- The burrego `EvaluatorBuilder` chain used in `build`
(`default().engine(&engine).module(module).host_callbacks(..)`, optionally
`.enable_epoch_interruptions(deadlines.wapc_func)`), as the record of what
was configured. -/
structure BurregoEvaluatorBuilder where
  engine : Option Engine
  module : Option Module
  host_callbacks_wired : Bool
  epoch_deadline : Option Nat
deriving Repr

/-- Rust `burrego::EvaluatorBuilder::default()`. -/
def BurregoEvaluatorBuilder.default : BurregoEvaluatorBuilder :=
  { engine := none, module := none, host_callbacks_wired := false,
    epoch_deadline := none }

/-- Rust `burrego::EvaluatorBuilder::engine`. -/
def BurregoEvaluatorBuilder.engine_with (b : BurregoEvaluatorBuilder)
    (e : Engine) : BurregoEvaluatorBuilder :=
  { b with engine := some e }

/-- Rust `burrego::EvaluatorBuilder::module`. -/
def BurregoEvaluatorBuilder.module_with (b : BurregoEvaluatorBuilder)
    (m : Module) : BurregoEvaluatorBuilder :=
  { b with module := some m }

/-- Rust `burrego::EvaluatorBuilder::host_callbacks` with
`crate::runtimes::rego::new_host_callbacks()`. -/
def BurregoEvaluatorBuilder.host_callbacks (b : BurregoEvaluatorBuilder) :
    BurregoEvaluatorBuilder :=
  { b with host_callbacks_wired := true }

/-- Rust `burrego::EvaluatorBuilder::enable_epoch_interruptions`: takes a single
tick budget. -/
def BurregoEvaluatorBuilder.enable_epoch_interruptions
    (b : BurregoEvaluatorBuilder) (deadline : Nat) : BurregoEvaluatorBuilder :=
  { b with epoch_deadline := some deadline }

/-- Modelled from the spec: `burrego::EvaluatorBuilder::build` produces the
evaluator recording the configuration, or fails (external crate). It is only
called with engine and module already set. -/
def BurregoEvaluatorBuilder.build (b : BurregoEvaluatorBuilder)
    (ext : Externals) : Except BuildError BurregoEvaluator :=
  match b.engine, b.module with
  | some e, some m =>
    if ext.burrego_build_ok then
      Except.ok { engine := e, module := m,
                  host_callbacks_wired := b.host_callbacks_wired,
                  epoch_deadline := b.epoch_deadline }
    else
      Except.error BuildError.burregoBuildFailed
  | _, _ => Except.error BuildError.burregoBuildFailed

/-- Rust `BurregoStack` as assembled in `build`: the evaluator, the hardcoded
entrypoint id, and the converted execution mode. -/
structure BurregoStack where
  evaluator : BurregoEvaluator
  entrypoint_id : Nat
  policy_execution_mode : RegoPolicyExecutionMode
deriving DecidableEq, Repr

/-- The `Runtime` sum type over the three dialect stacks. -/
inductive Runtime where
  | Wapc (stack : WapcStack)
  | Cli (stack : WasiStack)
  | Burrego (stack : BurregoStack)
deriving DecidableEq, Repr

/-- The finished `PolicyEvaluator` as assembled by
`PolicyEvaluator::new(&self.policy_id, self.worker_id, runtime)`. -/
structure PolicyEvaluator where
  policy_id : String
  worker_id : Nat
  runtime : Runtime
deriving DecidableEq, Repr

/-- Rust `PolicyEvaluator::new`. -/
def PolicyEvaluator.new (policy_id : String) (worker_id : Nat)
    (runtime : Runtime) : PolicyEvaluator :=
  { policy_id := policy_id, worker_id := worker_id, runtime := runtime }

/-- Rust `PolicyEvaluatorBuilder` from `policy_evaluator_builder.rs`: the full
configuration surface. `worker_id` is a `u64`, byte arrays are `List Nat`,
and the `BTreeSet` allow list is a list. -/
structure PolicyEvaluatorBuilder where
  engine : Option Engine
  policy_id : String
  worker_id : Nat
  policy_file : Option String
  policy_contents : Option (List Nat)
  policy_module : Option Module
  execution_mode : Option PolicyExecutionMode
  callback_channel : Option CallbackChannel
  wasmtime_cache : Bool
  epoch_deadlines : Option EpochDeadlines
  ctx_aware_resources_allow_list : List ContextAwareResource

/-- Rust `PolicyEvaluatorBuilder::new(policy_id, worker_id)`: everything else
defaulted. -/
def PolicyEvaluatorBuilder.new (policy_id : String) (worker_id : Nat) :
    PolicyEvaluatorBuilder :=
  { engine := none, policy_id := policy_id, worker_id := worker_id,
    policy_file := none, policy_contents := none, policy_module := none,
    execution_mode := none, callback_channel := none, wasmtime_cache := false,
    epoch_deadlines := none, ctx_aware_resources_allow_list := [] }

/-- Rust `PolicyEvaluatorBuilder::validate_user_input`: the configuration checks
run by `build` before any expensive work, in source order. -/
def PolicyEvaluatorBuilder.validate_user_input (b : PolicyEvaluatorBuilder) :
    Except BuildError Unit :=
  if b.policy_file.isSome && b.policy_contents.isSome then
    Except.error (BuildError.cannotSpecifyTogether
      BuilderSourceField.policy_file BuilderSourceField.policy_contents)
  else if b.policy_file.isSome && b.policy_module.isSome then
    Except.error (BuildError.cannotSpecifyTogether
      BuilderSourceField.policy_file BuilderSourceField.policy_module)
  else if b.policy_contents.isSome && b.policy_module.isSome then
    Except.error (BuildError.cannotSpecifyTogether
      BuilderSourceField.policy_contents BuilderSourceField.policy_module)
  else if b.policy_file.isNone && b.policy_contents.isNone
      && b.policy_module.isNone then
    Except.error BuildError.mustSpecifyOneSource
  else if b.engine.isNone && b.policy_module.isSome then
    Except.error BuildError.mustProvideEngine
  else if b.execution_mode.isNone then
    Except.error BuildError.mustSpecifyExecutionMode
  else
    Except.ok ()

/-- Rust `wasmtime::Engine::new(&config)`: yields the engine carrying exactly the
given configuration, or fails (oracle). -/
def Engine.new (config : Config) (ext : Externals) : Except BuildError Engine :=
  if ext.engine_new_ok config then
    Except.ok { config := config }
  else
    Except.error BuildError.cannotCreateEngine

/-- The engine-resolution step of `build` (the `map_or_else` on
`self.engine`): use the supplied engine as-is (`e.clone()`), or build a
fresh `Config`, load the cache configuration when `wasmtime_cache` is set,
enable epoch interruption when deadlines were configured, and call
`Engine::new`. Both failure paths are mapped to the single
`cannot create wasmtime engine` error. Returns the effects performed. -/
def resolve_engine (b : PolicyEvaluatorBuilder) (ext : Externals) :
    Except BuildError Engine × List Effect :=
  match b.engine with
  | some e => (Except.ok e, [])
  | none =>
    let wasmtime_config := Config.new
    if b.wasmtime_cache && !ext.cache_config_load_ok then
      (Except.error BuildError.cannotCreateEngine, [])
    else
      let wasmtime_config :=
        if b.wasmtime_cache then { wasmtime_config with cache := true }
        else wasmtime_config
      let wasmtime_config :=
        if b.epoch_deadlines.isSome then
          { wasmtime_config with epoch_interruption := true }
        else wasmtime_config
      (Engine.new wasmtime_config ext, [Effect.engineCreation])

/-- The module-resolution step of `build`: reuse the supplied compiled
module (`m.clone()`), or compile from the file path
(`Module::from_file`) or from the raw bytes
(`Module::new(&engine, self.policy_contents.as_ref().unwrap())`); the
`unwrap` panics when `policy_contents` is absent. Returns the effects
performed. -/
def resolve_module (b : PolicyEvaluatorBuilder) (engine : Engine)
    (ext : Externals) : RustOutcome Module × List Effect :=
  match b.policy_module with
  | some m => (RustOutcome.ok m, [])
  | none =>
    match b.policy_file with
    | some file =>
      match ext.from_file engine file with
      | some m => (RustOutcome.ok m, [Effect.fileRead file])
      | none => (RustOutcome.err BuildError.moduleCompilationFailed,
                 [Effect.fileRead file])
    | none =>
      match b.policy_contents with
      | some contents =>
        match ext.module_new engine contents with
        | some m => (RustOutcome.ok m, [Effect.moduleCompilation])
        | none => (RustOutcome.err BuildError.moduleCompilationFailed,
                   [Effect.moduleCompilation])
      | none => (RustOutcome.panicked, [])

/-- Rust `create_wapc_runtime` from `policy_evaluator_builder.rs`: create the waPC
stack, build the `EvaluationContext` from the policy id, the callback channel
and the allow list, register it under the stack's wapc host id together with
the worker id, and return the `Runtime::Wapc` variant. On stack-creation
failure nothing is registered. -/
def create_wapc_runtime (policy_id : String) (worker_id : Nat)
    (engine : Engine) (module : Module)
    (epoch_deadlines : Option EpochDeadlines)
    (callback_channel : Option CallbackChannel)
    (ctx_aware_resources_allow_list : List ContextAwareResource)
    (ext : Externals) (reg : Registry) :
    Except BuildError Runtime × Registry × List Effect :=
  match WapcStack.new engine module epoch_deadlines ext with
  | Except.error e => (Except.error e, reg, [])
  | Except.ok wapc_stack =>
    let eval_ctx : EvaluationContext :=
      { policy_id := policy_id, callback_channel := callback_channel,
        ctx_aware_resources_allow_list := ctx_aware_resources_allow_list }
    (Except.ok (Runtime.Wapc wapc_stack),
     register_policy wapc_stack.wapc_host_id worker_id eval_ctx reg,
     [Effect.registryRegistration wapc_stack.wapc_host_id])

/-- The runtime-dispatch step of `build` (`match execution_mode`): construct
the runtime variant for the given mode, threading the registry and
collecting effects. -/
def dispatch_runtime (b : PolicyEvaluatorBuilder)
    (execution_mode : PolicyExecutionMode) (engine : Engine) (module : Module)
    (ext : Externals) (reg : Registry) :
    Except BuildError Runtime × Registry × List Effect :=
  match execution_mode with
  | PolicyExecutionMode.KubewardenWapc =>
    create_wapc_runtime b.policy_id b.worker_id engine module
      b.epoch_deadlines b.callback_channel b.ctx_aware_resources_allow_list
      ext reg
  | PolicyExecutionMode.Wasi =>
    match WasiStack.new engine module b.epoch_deadlines ext with
    | Except.error e => (Except.error e, reg, [])
    | Except.ok cli_stack => (Except.ok (Runtime.Cli cli_stack), reg, [])
  | PolicyExecutionMode.Opa | PolicyExecutionMode.OpaGatekeeper =>
    let builder := ((BurregoEvaluatorBuilder.default.engine_with
      engine).module_with module).host_callbacks
    let builder :=
      match b.epoch_deadlines with
      | some deadlines =>
        builder.enable_epoch_interruptions deadlines.wapc_func
      | none => builder
    match builder.build ext with
    | Except.error e => (Except.error e, reg, [])
    | Except.ok evaluator =>
      match execution_mode.try_into_rego with
      | Except.error e => (Except.error e, reg, [])
      | Except.ok rego_mode =>
        (Except.ok (Runtime.Burrego
          { evaluator := evaluator, entrypoint_id := 0,
            policy_execution_mode := rego_mode }), reg, [])

/-- Rust `PolicyEvaluatorBuilder::build`: validate, resolve the engine, resolve
the module, unwrap the execution mode, dispatch on it, and assemble the
`PolicyEvaluator`. Takes the registry as explicit state and returns the
outcome, the new registry, and the list of effects performed in order. -/
def PolicyEvaluatorBuilder.build (b : PolicyEvaluatorBuilder)
    (ext : Externals) (reg : Registry) :
    RustOutcome PolicyEvaluator × Registry × List Effect :=
  match b.validate_user_input with
  | Except.error e => (RustOutcome.err e, reg, [])
  | Except.ok _ =>
    match resolve_engine b ext with
    | (Except.error e, effects) => (RustOutcome.err e, reg, effects)
    | (Except.ok engine, engine_effects) =>
      match resolve_module b engine ext with
      | (RustOutcome.err e, module_effects) =>
        (RustOutcome.err e, reg, engine_effects ++ module_effects)
      | (RustOutcome.panicked, module_effects) =>
        (RustOutcome.panicked, reg, engine_effects ++ module_effects)
      | (RustOutcome.ok module, module_effects) =>
        match b.execution_mode with
        | none => (RustOutcome.panicked, reg, engine_effects ++ module_effects)
        | some execution_mode =>
          match dispatch_runtime b execution_mode engine module ext reg with
          | (Except.error e, reg2, runtime_effects) =>
            (RustOutcome.err e, reg2,
             engine_effects ++ module_effects ++ runtime_effects)
          | (Except.ok runtime, reg2, runtime_effects) =>
            (RustOutcome.ok (PolicyEvaluator.new b.policy_id b.worker_id runtime),
             reg2, engine_effects ++ module_effects ++ runtime_effects)

/-- Whether a given module-source field is set on the builder. -/
def source_field_set (b : PolicyEvaluatorBuilder) : BuilderSourceField → Bool
  | BuilderSourceField.policy_file => b.policy_file.isSome
  | BuilderSourceField.policy_contents => b.policy_contents.isSome
  | BuilderSourceField.policy_module => b.policy_module.isSome

/-- How many of the three module-source fields are set on the builder. -/
def num_sources_set (b : PolicyEvaluatorBuilder) : Nat :=
  (if b.policy_file.isSome then 1 else 0) +
    (if b.policy_contents.isSome then 1 else 0) +
    (if b.policy_module.isSome then 1 else 0)

/-- An environment in which every external operation succeeds; the fresh waPC
instance gets host id 7. -/
def extOk : Externals :=
  { cache_config_load_ok := true,
    engine_new_ok := fun _ => true,
    from_file := fun _ _ => some { mdata := 10 },
    module_new := fun _ _ => some { mdata := 11 },
    wapc_stack_new_ok := true,
    wapc_host_id := 7,
    wasi_stack_new_ok := true,
    burrego_build_ok := true }

/-- A host-call-dialect configuration: raw module bytes, a callback channel
and a one-element allow list. -/
def bWapc : PolicyEvaluatorBuilder :=
  { PolicyEvaluatorBuilder.new "wapc-policy" 3 with
      policy_contents := some [0, 97, 115, 109],
      execution_mode := some PolicyExecutionMode.KubewardenWapc,
      callback_channel := some { content := 5 },
      ctx_aware_resources_allow_list := [{ apiVersion := "v1", kind := "Pod" }] }

/-- A configuration with two conflicting module sources
(`policy_file` and `policy_contents`). -/
def bConflict : PolicyEvaluatorBuilder :=
  { PolicyEvaluatorBuilder.new "conflicted" 0 with
      policy_file := some "policy.wasm",
      policy_contents := some [0, 97, 115, 109],
      execution_mode := some PolicyExecutionMode.Wasi }

/-- A configuration with a compiled module and no engine, but also a
`policy_file`. -/
def bModuleAndFile : PolicyEvaluatorBuilder :=
  { PolicyEvaluatorBuilder.new "module-and-file" 0 with
      policy_file := some "policy.wasm",
      policy_module := some { mdata := 1 },
      execution_mode := some PolicyExecutionMode.KubewardenWapc }

/-- A configuration whose only module source is a compiled module, with no
engine. -/
def bModuleOnly : PolicyEvaluatorBuilder :=
  { PolicyEvaluatorBuilder.new "module-only" 0 with
      policy_module := some { mdata := 1 },
      execution_mode := some PolicyExecutionMode.Wasi }

/-- A host-call-dialect configuration with no module source at all. -/
def bWapcNoSource : PolicyEvaluatorBuilder :=
  { PolicyEvaluatorBuilder.new "wapc-no-source" 0 with
      execution_mode := some PolicyExecutionMode.KubewardenWapc }

/-- A command-line-dialect configuration built from raw bytes. -/
def bWasi : PolicyEvaluatorBuilder :=
  { PolicyEvaluatorBuilder.new "wasi-policy" 1 with
      policy_contents := some [0, 97, 115, 109],
      execution_mode := some PolicyExecutionMode.Wasi }

/-- A rule-engine configuration (plain Opa) with both deadline budgets set,
and distinct, so the two budgets can be told apart. -/
def bRego : PolicyEvaluatorBuilder :=
  { PolicyEvaluatorBuilder.new "rego-policy" 2 with
      policy_contents := some [0, 97, 115, 109],
      execution_mode := some PolicyExecutionMode.Opa,
      epoch_deadlines := some { wapc_init := 1, wapc_func := 5 } }

/-- A configuration that supplies its own engine whose flags disagree with
the builder's cache flag, to observe that the engine is used as-is. -/
def bEngineSupplied : PolicyEvaluatorBuilder :=
  { PolicyEvaluatorBuilder.new "own-engine" 0 with
      engine := some { config := { cache := false, epoch_interruption := true } },
      policy_contents := some [0, 97, 115, 109],
      execution_mode := some PolicyExecutionMode.Wasi,
      wasmtime_cache := true }

/-- A configuration with no engine, the cache flag on, and deadlines set, so
the freshly built engine must carry both flags. -/
def bFresh : PolicyEvaluatorBuilder :=
  { PolicyEvaluatorBuilder.new "fresh-engine" 0 with
      policy_contents := some [0, 97, 115, 109],
      execution_mode := some PolicyExecutionMode.Wasi,
      wasmtime_cache := true,
      epoch_deadlines := some { wapc_init := 1, wapc_func := 2 } }

/-- A valid configuration whose only module source is `policy_contents`. -/
def bContentsOnly : PolicyEvaluatorBuilder :=
  { PolicyEvaluatorBuilder.new "contents-only" 0 with
      policy_contents := some [0, 97, 115, 109],
      execution_mode := some PolicyExecutionMode.Wasi }

/-- C3: two `Policy` values are `PartialEq`-equal exactly when their `id`
strings and their `policy_id` instance handles agree; no other field enters
the comparison. -/
theorem policy_eq_iff_id_and_instance (a b : Policy) :
    Policy.eq a b = true ↔ (a.id = b.id ∧ a.policy_id = b.policy_id) := by
  simp [Policy.eq]

/-- C10: `Policy::new` succeeds on every combination of inputs, returning
the policy assembled from them; its `Result` type has no error case. -/
theorem policy_new_always_ok (id : String) (mutating : Bool)
    (policy_id : Option Nat) (callback_channel : Option CallbackChannel) :
    Policy.new id mutating policy_id callback_channel =
      Except.ok { id := id, mutating := mutating, policy_id := policy_id,
                  callback_channel := callback_channel } := rfl

/-- C8: the `Debug` rendering of a `Policy` depends only on `id`,
`policy_id` and the presence of the callback channel; two policies that
agree on those (in particular, that differ only in the contents of their
channels) render identically. -/
theorem policy_debug_hides_channel_contents (p q : Policy)
    (hid : p.id = q.id) (hpid : p.policy_id = q.policy_id)
    (hch : p.callback_channel.isSome = q.callback_channel.isSome) :
    p.debugFmt = q.debugFmt := by
  unfold Policy.debugFmt
  rw [hid, hpid]
  cases hp : p.callback_channel <;> cases hq : q.callback_channel <;>
    simp_all

/-- Witness for C8: two policies sharing identity but holding different
callback channels have the same debug rendering. -/
theorem policy_debug_hides_channel_contents_witness :
    Policy.debugFmt { id := "a-policy", mutating := true, policy_id := some 2,
                      callback_channel := some { content := 1 } } =
      Policy.debugFmt { id := "a-policy", mutating := true, policy_id := some 2,
                        callback_channel := some { content := 2 } } :=
  policy_debug_hides_channel_contents _ _ rfl rfl rfl

/-- C9: whenever `validate_user_input` succeeds, the two `unwrap` calls in
`build` cannot panic: the execution mode is necessarily set, and if neither
`policy_module` nor `policy_file` is set then `policy_contents` is. -/
theorem validate_ok_makes_unwraps_safe (b : PolicyEvaluatorBuilder)
    (h : b.validate_user_input = Except.ok ()) :
    b.execution_mode.isSome = true ∧
      (b.policy_module = none → b.policy_file = none →
        b.policy_contents.isSome = true) := by
  unfold PolicyEvaluatorBuilder.validate_user_input at h
  split_ifs at h with h1 h2 h3 h4 h5 h6
  refine ⟨?_, ?_⟩
  · cases hm : b.execution_mode with
    | none => exact absurd (by simp [hm]) h6
    | some m => simp
  · intro hpm hpf
    cases hc : b.policy_contents with
    | none => exact absurd (by simp [hpm, hpf, hc]) h4
    | some c => simp

/-- Witness for C9: a configuration with only `policy_contents` and an
execution mode validates, so the unwrap preconditions hold for it. -/
theorem validate_ok_makes_unwraps_safe_witness :
    bContentsOnly.execution_mode.isSome = true ∧
      (bContentsOnly.policy_module = none → bContentsOnly.policy_file = none →
        bContentsOnly.policy_contents.isSome = true) :=
  validate_ok_makes_unwraps_safe bContentsOnly rfl

/-- Counterexample for C6: with `policy_module` set and no engine, but also
`policy_file` set, `build` reports the `policy_file`/`policy_module`
conflict, not the missing-engine error — so the engine error does not occur
regardless of all other fields. -/
theorem module_without_engine_counterexample :
    bModuleAndFile.policy_module.isSome = true ∧
      bModuleAndFile.engine = none ∧
      (bModuleAndFile.build extOk []).fst ≠
        RustOutcome.err BuildError.mustProvideEngine ∧
      (bModuleAndFile.build extOk []).fst =
        RustOutcome.err (BuildError.cannotSpecifyTogether
          BuilderSourceField.policy_file BuilderSourceField.policy_module) := by
  decide

/-- C6 (amended): when `policy_module` is the only module source set and no
engine is supplied, `build` fails with the missing-engine configuration
error, whatever the remaining fields hold. -/
theorem module_without_engine_fails (b : PolicyEvaluatorBuilder)
    (ext : Externals) (reg : Registry)
    (hm : b.policy_module.isSome = true) (he : b.engine = none)
    (hf : b.policy_file = none) (hc : b.policy_contents = none) :
    (b.build ext reg).fst = RustOutcome.err BuildError.mustProvideEngine := by
  obtain ⟨m, hm2⟩ := Option.isSome_iff_exists.mp hm
  unfold PolicyEvaluatorBuilder.build PolicyEvaluatorBuilder.validate_user_input
  simp [hm2, he, hf, hc]

/-- Witness for C6 (amended): the module-only, engine-less configuration
fails with the missing-engine error. -/
theorem module_without_engine_fails_witness :
    (bModuleOnly.build extOk []).fst =
      RustOutcome.err BuildError.mustProvideEngine :=
  module_without_engine_fails bModuleOnly extOk [] rfl rfl rfl rfl

/-- C5: the engine-resolution step of `build` uses a supplied engine as-is
(its configuration untouched by the cache flag and the deadlines), and any
fresh engine it builds carries the cache flag exactly when `wasmtime_cache`
is set and epoch interruption exactly when some deadline pair was
configured. -/
theorem engine_resolution_respects_flags (b : PolicyEvaluatorBuilder)
    (ext : Externals) :
    (∀ e0 : Engine, b.engine = some e0 →
      (resolve_engine b ext).fst = Except.ok e0) ∧
    (b.engine = none → ∀ e : Engine,
      (resolve_engine b ext).fst = Except.ok e →
      e.config.cache = b.wasmtime_cache ∧
      e.config.epoch_interruption = b.epoch_deadlines.isSome) := by
  constructor
  · intro e0 h
    simp [resolve_engine, h]
  · intro h e hok
    unfold resolve_engine at hok
    rw [h] at hok
    cases hcache : b.wasmtime_cache <;>
      cases hload : ext.cache_config_load_ok <;>
      cases hdl : b.epoch_deadlines <;>
      simp [hcache, hload, hdl, Config.new, Engine.new] at hok <;>
      split at hok <;>
      first
      | (have he2 := Except.ok.inj hok
         subst he2
         simp [hcache, hdl])
      | exact absurd hok (by simp)

/-- Witness for C5: the supplied engine of `bEngineSupplied` comes back
unchanged even though the builder's cache flag disagrees with it, and the
fresh engine built for `bFresh` carries exactly its cache flag and its
deadline-driven epoch-interruption flag. -/
theorem engine_resolution_respects_flags_witness :
    (resolve_engine bEngineSupplied extOk).fst =
      Except.ok { config := { cache := false, epoch_interruption := true } } ∧
    (({ config := { cache := true, epoch_interruption := true } } :
        Engine).config.cache = bFresh.wasmtime_cache ∧
      ({ config := { cache := true, epoch_interruption := true } } :
        Engine).config.epoch_interruption = bFresh.epoch_deadlines.isSome) :=
  ⟨(engine_resolution_respects_flags bEngineSupplied extOk).1 _ rfl,
   (engine_resolution_respects_flags bFresh extOk).2 rfl _ rfl⟩

/-- Looking up a freshly registered wapc host id returns exactly the new
entry. -/
theorem lookup_register_policy (wapc_host_id worker_id : Nat)
    (eval_ctx : EvaluationContext) (reg : Registry) :
    Registry.lookup (register_policy wapc_host_id worker_id eval_ctx reg)
        wapc_host_id =
      some { worker_id := worker_id, eval_ctx := eval_ctx } := by
  simp [Registry.lookup, register_policy]

/-- The engine-resolution step never registers anything. -/
theorem resolve_engine_no_registration (b : PolicyEvaluatorBuilder)
    (ext : Externals) (n : Nat) :
    Effect.registryRegistration n ∉ (resolve_engine b ext).snd := by
  unfold resolve_engine
  cases b.engine with
  | none => split_ifs <;> simp
  | some e => simp

/-- The module-resolution step never registers anything. -/
theorem resolve_module_no_registration (b : PolicyEvaluatorBuilder)
    (engine : Engine) (ext : Externals) (n : Nat) :
    Effect.registryRegistration n ∉ (resolve_module b engine ext).snd := by
  unfold resolve_module
  cases b.policy_module with
  | some m => simp
  | none =>
    cases b.policy_file with
    | some file =>
      rcases hfm : ext.from_file engine file with _ | m <;> simp [hfm]
    | none =>
      cases b.policy_contents with
      | some contents =>
        rcases hcm : ext.module_new engine contents with _ | m <;> simp [hcm]
      | none => simp

/-- A successful host-call-dialect build leaves the registry equal to the
input registry with the new instance registered under the fresh wapc host
id, mapped to the builder's worker id and evaluation context. -/
theorem wapc_build_registry (b : PolicyEvaluatorBuilder) (ext : Externals)
    (reg : Registry)
    (hmode : b.execution_mode = some PolicyExecutionMode.KubewardenWapc)
    (hok : (b.build ext reg).fst.isOk = true) :
    (b.build ext reg).snd.fst =
      register_policy ext.wapc_host_id b.worker_id
        { policy_id := b.policy_id, callback_channel := b.callback_channel,
          ctx_aware_resources_allow_list := b.ctx_aware_resources_allow_list }
        reg := by
  unfold PolicyEvaluatorBuilder.build at hok ⊢
  cases hv : b.validate_user_input with
  | error e => simp [hv, RustOutcome.isOk] at hok
  | ok u =>
    simp only [hv] at hok ⊢
    rcases he : resolve_engine b ext with ⟨ree, engine_effects⟩
    cases ree with
    | error e => simp [he, RustOutcome.isOk] at hok
    | ok engine =>
      simp only [he] at hok ⊢
      rcases hmres : resolve_module b engine ext with ⟨rmm, module_effects⟩
      cases rmm with
      | err e => simp [hmres, RustOutcome.isOk] at hok
      | panicked => simp [hmres, RustOutcome.isOk] at hok
      | ok module =>
        simp only [hmres, hmode] at hok ⊢
        unfold dispatch_runtime create_wapc_runtime WapcStack.new at hok ⊢
        cases hw : ext.wapc_stack_new_ok with
        | false => simp [hw, RustOutcome.isOk] at hok
        | true => simp [hw]

/-- C1: for every host-call-dialect configuration whose build succeeds, the
fresh instance's wapc host id is registered, mapped to the builder's worker
id and to an evaluation context carrying the builder's policy id, callback
channel and allow list. -/
theorem wapc_build_registers_instance (b : PolicyEvaluatorBuilder)
    (ext : Externals) (reg : Registry)
    (hmode : b.execution_mode = some PolicyExecutionMode.KubewardenWapc)
    (hok : (b.build ext reg).fst.isOk = true) :
    Registry.lookup (b.build ext reg).snd.fst ext.wapc_host_id =
      some { worker_id := b.worker_id,
             eval_ctx := { policy_id := b.policy_id,
                           callback_channel := b.callback_channel,
                           ctx_aware_resources_allow_list :=
                             b.ctx_aware_resources_allow_list } } := by
  rw [wapc_build_registry b ext reg hmode hok]
  exact lookup_register_policy ext.wapc_host_id b.worker_id _ reg

/-- Witness for C1: building `bWapc` registers host id 7 with worker id 3
and `bWapc`'s own context. -/
theorem wapc_build_registers_instance_witness :
    Registry.lookup (bWapc.build extOk []).snd.fst extOk.wapc_host_id =
      some { worker_id := bWapc.worker_id,
             eval_ctx := { policy_id := bWapc.policy_id,
                           callback_channel := bWapc.callback_channel,
                           ctx_aware_resources_allow_list :=
                             bWapc.ctx_aware_resources_allow_list } } :=
  wapc_build_registers_instance bWapc extOk [] rfl rfl

/-- C2: whenever two or more module sources are configured, `build` fails
with a configuration error naming two of the conflicting fields, and
performs no effect at all (no engine creation, no compilation, no file
read) and leaves the registry unchanged. -/
theorem conflicting_sources_fail_without_effects (b : PolicyEvaluatorBuilder)
    (ext : Externals) (reg : Registry) (h : 2 ≤ num_sources_set b) :
    ∃ f g, f ≠ g ∧ source_field_set b f = true ∧
      source_field_set b g = true ∧
      (b.build ext reg).fst =
        RustOutcome.err (BuildError.cannotSpecifyTogether f g) ∧
      (b.build ext reg).snd.fst = reg ∧
      (b.build ext reg).snd.snd = [] := by
  rcases hf : b.policy_file with _ | file <;>
    rcases hc : b.policy_contents with _ | contents <;>
    rcases hm : b.policy_module with _ | module
  · simp [num_sources_set, hf, hc, hm] at h
  · simp [num_sources_set, hf, hc, hm] at h
  · simp [num_sources_set, hf, hc, hm] at h
  · have hb : b.build ext reg =
        (RustOutcome.err (BuildError.cannotSpecifyTogether
          BuilderSourceField.policy_contents BuilderSourceField.policy_module),
          reg, ([] : List Effect)) := by
      unfold PolicyEvaluatorBuilder.build PolicyEvaluatorBuilder.validate_user_input
      simp [hf, hc, hm]
    exact ⟨BuilderSourceField.policy_contents, BuilderSourceField.policy_module,
      by decide, by simp [source_field_set, hc], by simp [source_field_set, hm],
      by simp [hb], by simp [hb], by simp [hb]⟩
  · simp [num_sources_set, hf, hc, hm] at h
  · have hb : b.build ext reg =
        (RustOutcome.err (BuildError.cannotSpecifyTogether
          BuilderSourceField.policy_file BuilderSourceField.policy_module),
          reg, ([] : List Effect)) := by
      unfold PolicyEvaluatorBuilder.build PolicyEvaluatorBuilder.validate_user_input
      simp [hf, hc, hm]
    exact ⟨BuilderSourceField.policy_file, BuilderSourceField.policy_module,
      by decide, by simp [source_field_set, hf], by simp [source_field_set, hm],
      by simp [hb], by simp [hb], by simp [hb]⟩
  · have hb : b.build ext reg =
        (RustOutcome.err (BuildError.cannotSpecifyTogether
          BuilderSourceField.policy_file BuilderSourceField.policy_contents),
          reg, ([] : List Effect)) := by
      unfold PolicyEvaluatorBuilder.build PolicyEvaluatorBuilder.validate_user_input
      simp [hf, hc, hm]
    exact ⟨BuilderSourceField.policy_file, BuilderSourceField.policy_contents,
      by decide, by simp [source_field_set, hf], by simp [source_field_set, hc],
      by simp [hb], by simp [hb], by simp [hb]⟩
  · have hb : b.build ext reg =
        (RustOutcome.err (BuildError.cannotSpecifyTogether
          BuilderSourceField.policy_file BuilderSourceField.policy_contents),
          reg, ([] : List Effect)) := by
      unfold PolicyEvaluatorBuilder.build PolicyEvaluatorBuilder.validate_user_input
      simp [hf, hc, hm]
    exact ⟨BuilderSourceField.policy_file, BuilderSourceField.policy_contents,
      by decide, by simp [source_field_set, hf], by simp [source_field_set, hc],
      by simp [hb], by simp [hb], by simp [hb]⟩

/-- Witness for C2: `bConflict` sets both `policy_file` and
`policy_contents`; build returns the conflict error for two set fields, with
no effects and an unchanged registry. -/
theorem conflicting_sources_fail_without_effects_witness :
    2 ≤ num_sources_set bConflict ∧
      (∃ f g, f ≠ g ∧ source_field_set bConflict f = true ∧
        source_field_set bConflict g = true ∧
        (bConflict.build extOk []).fst =
          RustOutcome.err (BuildError.cannotSpecifyTogether f g) ∧
        (bConflict.build extOk []).snd.fst = [] ∧
        (bConflict.build extOk []).snd.snd = []) :=
  ⟨by decide,
   conflicting_sources_fail_without_effects bConflict extOk [] (by decide)⟩

/-- C4: a successful rule-engine build with deadlines configured enables
deadline interruption with the per-call budget only (`wapc_func`), and the
resulting stack's entrypoint id is the hardcoded value 0. -/
theorem rego_build_uses_func_budget_and_entrypoint_zero
    (b : PolicyEvaluatorBuilder) (ext : Externals) (reg : Registry)
    (mode : PolicyExecutionMode) (d : EpochDeadlines)
    (hmode : b.execution_mode = some mode)
    (hrego : mode = PolicyExecutionMode.Opa ∨
      mode = PolicyExecutionMode.OpaGatekeeper)
    (hd : b.epoch_deadlines = some d)
    (hok : (b.build ext reg).fst.isOk = true) :
    ∃ stack : BurregoStack,
      (b.build ext reg).fst =
        RustOutcome.ok (PolicyEvaluator.new b.policy_id b.worker_id
          (Runtime.Burrego stack)) ∧
      stack.evaluator.epoch_deadline = some d.wapc_func ∧
      stack.entrypoint_id = 0 := by
  unfold PolicyEvaluatorBuilder.build at hok ⊢
  cases hv : b.validate_user_input with
  | error e => simp [hv, RustOutcome.isOk] at hok
  | ok u =>
    simp only [hv] at hok ⊢
    rcases he : resolve_engine b ext with ⟨ree, engine_effects⟩
    cases ree with
    | error e => simp [he, RustOutcome.isOk] at hok
    | ok engine =>
      simp only [he] at hok ⊢
      rcases hmres : resolve_module b engine ext with ⟨rmm, module_effects⟩
      cases rmm with
      | err e => simp [hmres, RustOutcome.isOk] at hok
      | panicked => simp [hmres, RustOutcome.isOk] at hok
      | ok module =>
        simp only [hmres, hmode] at hok ⊢
        rcases hrego with rfl | rfl <;>
          unfold dispatch_runtime at hok ⊢ <;>
          simp only [hd] at hok ⊢ <;>
          unfold BurregoEvaluatorBuilder.build at hok ⊢ <;>
          simp only [BurregoEvaluatorBuilder.default,
            BurregoEvaluatorBuilder.engine_with,
            BurregoEvaluatorBuilder.module_with,
            BurregoEvaluatorBuilder.host_callbacks,
            BurregoEvaluatorBuilder.enable_epoch_interruptions,
            PolicyExecutionMode.try_into_rego] at hok ⊢ <;>
          cases hbb : ext.burrego_build_ok <;>
          simp [hbb, RustOutcome.isOk] at hok ⊢ <;>
          exact ⟨_, rfl, rfl, rfl⟩

/-- Witness for C4: the Opa build of `bRego` (budgets 1 and 5) yields a
Burrego stack with per-call deadline 5 and entrypoint id 0. -/
theorem rego_build_uses_func_budget_and_entrypoint_zero_witness :
    ∃ stack : BurregoStack,
      (bRego.build extOk []).fst =
        RustOutcome.ok (PolicyEvaluator.new bRego.policy_id bRego.worker_id
          (Runtime.Burrego stack)) ∧
      stack.evaluator.epoch_deadline =
        some ({ wapc_init := 1, wapc_func := 5 } : EpochDeadlines).wapc_func ∧
      stack.entrypoint_id = 0 :=
  rego_build_uses_func_budget_and_entrypoint_zero bRego extOk []
    PolicyExecutionMode.Opa { wapc_init := 1, wapc_func := 5 }
    rfl (Or.inl rfl) rfl rfl

/-- Counterexample for C7: a configuration in host-call mode whose build
fails (it supplies no module source) performs no registry registration and
leaves the registry unchanged — so registration is not equivalent to the
mode being KubewardenWapc. -/
theorem registration_iff_counterexample :
    bWapcNoSource.execution_mode = some PolicyExecutionMode.KubewardenWapc ∧
      (bWapcNoSource.build extOk []).snd.snd = [] ∧
      (bWapcNoSource.build extOk []).snd.fst = [] ∧
      (bWapcNoSource.build extOk []).fst =
        RustOutcome.err BuildError.mustSpecifyOneSource := by
  decide

/-- C7 (amended): `build` performs a registry registration exactly when the
execution mode is KubewardenWapc and the build succeeds; whenever the mode
is not KubewardenWapc the registry is left unchanged. -/
theorem registration_iff_wapc_success (b : PolicyEvaluatorBuilder)
    (ext : Externals) (reg : Registry) :
    ((Effect.registryRegistration ext.wapc_host_id ∈
        (b.build ext reg).snd.snd) ↔
      (b.execution_mode = some PolicyExecutionMode.KubewardenWapc ∧
        (b.build ext reg).fst.isOk = true)) ∧
    (b.execution_mode ≠ some PolicyExecutionMode.KubewardenWapc →
      (b.build ext reg).snd.fst = reg) := by
  have hne0 := resolve_engine_no_registration b ext ext.wapc_host_id
  unfold PolicyEvaluatorBuilder.build
  cases hv : b.validate_user_input with
  | error e => simp [RustOutcome.isOk]
  | ok u =>
    rcases he : resolve_engine b ext with ⟨ree, engine_effects⟩
    rw [he] at hne0
    have hne : Effect.registryRegistration ext.wapc_host_id ∉ engine_effects :=
      hne0
    simp only [he]
    cases ree with
    | error e => simp [RustOutcome.isOk, hne]
    | ok engine =>
      have hnm0 := resolve_module_no_registration b engine ext ext.wapc_host_id
      rcases hmres : resolve_module b engine ext with ⟨rmm, module_effects⟩
      rw [hmres] at hnm0
      have hnm : Effect.registryRegistration ext.wapc_host_id ∉ module_effects :=
        hnm0
      simp only [hmres]
      cases rmm with
      | err e => simp [RustOutcome.isOk, hne, hnm]
      | panicked => simp [RustOutcome.isOk, hne, hnm]
      | ok module =>
        cases hmode : b.execution_mode with
        | none => simp [RustOutcome.isOk, hne, hnm]
        | some mode =>
          simp only [hmode]
          cases mode with
          | KubewardenWapc =>
            unfold dispatch_runtime create_wapc_runtime WapcStack.new
            cases hw : ext.wapc_stack_new_ok with
            | false => simp [RustOutcome.isOk, hne, hnm, hw]
            | true => simp [RustOutcome.isOk, hne, hnm, hw]
          | Wasi =>
            unfold dispatch_runtime WasiStack.new
            cases hw : ext.wasi_stack_new_ok with
            | false => simp [RustOutcome.isOk, hne, hnm, hw]
            | true => simp [RustOutcome.isOk, hne, hnm, hw]
          | Opa =>
            unfold dispatch_runtime BurregoEvaluatorBuilder.build
            cases hd : b.epoch_deadlines <;>
              cases hbb : ext.burrego_build_ok <;>
              simp [RustOutcome.isOk, hne, hnm, hd, hbb,
                BurregoEvaluatorBuilder.default,
                BurregoEvaluatorBuilder.engine_with,
                BurregoEvaluatorBuilder.module_with,
                BurregoEvaluatorBuilder.host_callbacks,
                BurregoEvaluatorBuilder.enable_epoch_interruptions,
                PolicyExecutionMode.try_into_rego]
          | OpaGatekeeper =>
            unfold dispatch_runtime BurregoEvaluatorBuilder.build
            cases hd : b.epoch_deadlines <;>
              cases hbb : ext.burrego_build_ok <;>
              simp [RustOutcome.isOk, hne, hnm, hd, hbb,
                BurregoEvaluatorBuilder.default,
                BurregoEvaluatorBuilder.engine_with,
                BurregoEvaluatorBuilder.module_with,
                BurregoEvaluatorBuilder.host_callbacks,
                BurregoEvaluatorBuilder.enable_epoch_interruptions,
                PolicyExecutionMode.try_into_rego]

/-- Witness for C7 (amended): the command-line build of `bWasi` performs no
registration and leaves the registry unchanged. -/
theorem registration_iff_wapc_success_witness :
    ((Effect.registryRegistration extOk.wapc_host_id ∈
        (bWasi.build extOk []).snd.snd) ↔
      (bWasi.execution_mode = some PolicyExecutionMode.KubewardenWapc ∧
        (bWasi.build extOk []).fst.isOk = true)) ∧
    (bWasi.build extOk []).snd.fst = [] :=
  ⟨(registration_iff_wapc_success bWasi extOk []).1,
   (registration_iff_wapc_success bWasi extOk []).2 (by decide)⟩

end PolicyEvaluatorLib
